import Mathlib

/-!
Shallow embedding of the presence-aware event dispatcher of the Todo backend
and of its event producers: the socket module (connection authentication,
the connectedUsers registry, the task:update / task:assign / comment:new
handlers, the disconnect handler) and the task / notification controllers
(createTask, updateTask, addComment, createNotification, markAsRead,
deleteReadNotifications).  User ids and socket ids are strings, the
JavaScript Map is an association list with Map.set / Map.get / Map.has /
Map.delete semantics, and a fallible durable store is modelled by a
predicate saying for which recipients the write throws.
-/

abbrev UserId := String
abbrev SocketId := String

/-- The shared connectedUsers JavaScript Map, modelled as an association
list keyed by user id: insertion order preserved, at most one entry per
key (a single socket id slot per user, exactly as in the source). -/
abbrev ConnectedUsers := List (UserId × SocketId)

namespace ConnectedUsers

/-- connectedUsers.set(userId, socketId): JS Map.set replaces the value in
place when the key is already present and appends a new entry otherwise. -/
def set : ConnectedUsers → UserId → SocketId → ConnectedUsers
  | [], k, v => [(k, v)]
  | (k', v') :: rest, k, v =>
    if k' = k then (k, v) :: rest else (k', v') :: set rest k v

/-- connectedUsers.has(userId). -/
def has : ConnectedUsers → UserId → Bool
  | [], _ => false
  | (k', _) :: rest, k => k' = k || has rest k

/-- connectedUsers.get(userId): JS Map.get, undefined modelled as none. -/
def get : ConnectedUsers → UserId → Option SocketId
  | [], _ => none
  | (k', v') :: rest, k => if k' = k then some v' else get rest k

/-- connectedUsers.delete(userId): removes the whole entry for the key. -/
def delete : ConnectedUsers → UserId → ConnectedUsers
  | [], _ => []
  | (k', v') :: rest, k => if k' = k then rest else (k', v') :: delete rest k

end ConnectedUsers

/-- A persisted fallback notification record, as built by the notification
controller (read defaults to false on creation). -/
structure Notification where
  user : UserId
  kind : String
  taskId : String
  message : String
  read : Bool
  deriving DecidableEq, Repr

/-- createNotification(userId, type, taskId, message) from the notification
controller: the store write is wrapped in try/catch, and a failure is
logged and turned into a null return value instead of being rethrown.
The predicate fails says for which recipients the durable write throws. -/
def createNotification (fails : UserId → Bool) (userId : UserId)
    (ty taskId message : String) : Option Notification :=
  if fails userId then none
  else some { user := userId, kind := ty, taskId := taskId,
              message := message, read := false }

/-- One io.to(target).emit(event, data) call: target is the room the push
is addressed to.  socket.io treats a raw socket id as the singleton room
containing just that socket. -/
structure Push where
  target : String
  event : String
  deriving DecidableEq, Repr

/-- Room membership produced by socket.join: pairs of room name and socket
id.  A push addressed to target reaches socket s iff s is a member of the
room named target; every socket is implicitly a member of the room named
by its own socket id. -/
def reaches (rooms : List (String × SocketId)) (p : Push) (s : SocketId) : Bool :=
  p.target = s || rooms.contains (p.target, s)

/-- data.task?.title || "Unknown". -/
def titleOrUnknown (t : Option String) : String := t.getD "Unknown"

/-- Payload of a task:update socket event. -/
structure TaskUpdateData where
  taskId : String
  title : Option String
  assignees : List UserId
  deriving Repr

/-- The for loop of the task:update handler, one iteration per assignee:
an assignee present in connectedUsers gets a live push emitted to the
socket id stored for them, any other assignee gets a fallback notification.
The loop never consults the id of the acting user. -/
def taskUpdateLoop (fails : UserId → Bool) (cu : ConnectedUsers)
    (taskId : String) (title : Option String) :
    List UserId → List Push × List Notification
  | [] => ([], [])
  | a :: rest =>
    let out := taskUpdateLoop fails cu taskId title rest
    if cu.has a then
      (⟨(cu.get a).getD "", "task:update"⟩ :: out.1, out.2)
    else
      match createNotification fails a "task:update" taskId
          ("Task \x22" ++ titleOrUnknown title ++ "\x22 has been updated") with
      | some n => (out.1, n :: out.2)
      | none => (out.1, out.2)

/-- The task:update handler of the socket module.  The parameter _actorId
is socket.userId, the authenticated user whose socket emitted the event:
it is in scope in the source handler but never read by it. -/
def taskUpdateHandler (fails : UserId → Bool) (cu : ConnectedUsers)
    (_actorId : UserId) (data : TaskUpdateData) :
    List Push × List Notification :=
  taskUpdateLoop fails cu data.taskId data.title data.assignees

/-- Payload of a task:assign socket event. -/
structure TaskAssignData where
  taskId : String
  assigneeId : UserId
  title : Option String
  deriving Repr

/-- The task:assign handler of the socket module: push when the assignee is
in connectedUsers, fallback notification otherwise.  As with task:update,
socket.userId (_actorId) is in scope but never compared against the
assignee. -/
def taskAssignHandler (fails : UserId → Bool) (cu : ConnectedUsers)
    (_actorId : UserId) (data : TaskAssignData) :
    List Push × List Notification :=
  if cu.has data.assigneeId then
    ([⟨(cu.get data.assigneeId).getD "", "task:assign"⟩], [])
  else
    match createNotification fails data.assigneeId "task:assign" data.taskId
        ("You have been assigned to task \x22" ++ titleOrUnknown data.title
          ++ "\x22") with
    | some n => ([], [n])
    | none => ([], [])

/-- Payload of a comment:new socket event. -/
structure CommentNewData where
  taskId : String
  taskCreator : UserId
  assignees : List UserId
  title : Option String
  deriving Repr

/-- The for loop of the comment:new handler over usersToNotify: the only
recipient skipped is the one equal to socket.userId (the commenter);
everyone else gets a push when online or a fallback notification when
offline.  Nothing removes duplicate ids from the list. -/
def commentNewLoop (fails : UserId → Bool) (cu : ConnectedUsers)
    (actorId : UserId) (taskId : String) (title : Option String) :
    List UserId → List Push × List Notification
  | [] => ([], [])
  | u :: rest =>
    let out := commentNewLoop fails cu actorId taskId title rest
    if u = actorId then out
    else if cu.has u then
      (⟨(cu.get u).getD "", "comment:new"⟩ :: out.1, out.2)
    else
      match createNotification fails u "comment:new" taskId
          ("New comment on task \x22" ++ titleOrUnknown title ++ "\x22") with
      | some n => (out.1, n :: out.2)
      | none => (out.1, out.2)

/-- The comment:new handler: usersToNotify = [data.taskCreator,
...data.assignees], then the loop above with actorId = socket.userId. -/
def commentNewHandler (fails : UserId → Bool) (cu : ConnectedUsers)
    (actorId : UserId) (data : CommentNewData) :
    List Push × List Notification :=
  commentNewLoop fails cu actorId data.taskId data.title
    (data.taskCreator :: data.assignees)

/-- The io.use authentication middleware: a missing token, or a token that
jwt.verify rejects, calls next with an authentication error; a verified
token resolves to the decoded user id.  The function verify models
jwt.verify against the server secret. -/
def authMiddleware (verify : String → Option UserId) :
    Option String → Except String UserId
  | none => Except.error "Authentication error"
  | some t =>
    match verify t with
    | some uid => Except.ok uid
    | none => Except.error "Authentication error"

/-- Server-side mutable state touched by connection handling: the
connectedUsers registry and the room memberships created by socket.join. -/
structure ServerState where
  connectedUsers : ConnectedUsers
  rooms : List (String × SocketId)
  deriving DecidableEq, Repr

/-- Processing of one incoming connection: the middleware runs first, and
on failure the connection handler never runs — no registry entry, no room
join — and the socket is disconnected (the Bool result is false).  On
success the user id is stored in connectedUsers and the socket joins the
room named user: followed by its user id. -/
def handleConnection (verify : String → Option UserId) (st : ServerState)
    (token : Option String) (sid : SocketId) : ServerState × Bool :=
  match authMiddleware verify token with
  | Except.error _ => (st, false)
  | Except.ok uid =>
    ({ connectedUsers := st.connectedUsers.set uid sid,
       rooms := ("user:" ++ uid, sid) :: st.rooms }, true)

/-- The disconnect handler: connectedUsers.delete(socket.userId), run for
whichever of the sockets owned by the user closed, followed by a broadcast
user:disconnect event (the broadcast does not change this state). -/
def handleDisconnect (st : ServerState) (userId : UserId) : ServerState :=
  { st with connectedUsers := st.connectedUsers.delete userId }

/-- Spreading a JavaScript Set built from a list back into an array keeps
the first occurrence of each element, in order.  The accumulator seen holds
the elements already emitted. -/
def jsSetDedup (seen : List UserId) : List UserId → List UserId
  | [] => []
  | a :: rest =>
    if a ∈ seen then jsSetDedup seen rest
    else a :: jsSetDedup (a :: seen) rest

/-- createTask: allAssignees = [...new Set([...assignees, req.user._id])],
the persisted assignee list of the new task. -/
def createTaskAllAssignees (assignees : List UserId) (creator : UserId) :
    List UserId :=
  jsSetDedup [] (assignees ++ [creator])

/-- updateTask, when the request body carries an assignees list:
req.body.assignees = [...new Set([...req.body.assignees, task.createdBy])]
before the update is persisted. -/
def updateTaskAssignees (bodyAssignees : List UserId) (createdBy : UserId) :
    List UserId :=
  jsSetDedup [] (bodyAssignees ++ [createdBy])

/-- The notification loop shared by the task controller endpoints: for each
listed user other than the requester, persist one notification with the
given type and message via createNotification (a failed write yields null
and is skipped). -/
def notifyLoop (fails : UserId → Bool) (requester : UserId)
    (ty taskId message : String) : List UserId → List Notification
  | [] => []
  | a :: rest =>
    if a = requester then notifyLoop fails requester ty taskId message rest
    else
      match createNotification fails a ty taskId message with
      | some n => n :: notifyLoop fails requester ty taskId message rest
      | none => notifyLoop fails requester ty taskId message rest

/-- The notification block of createTask: one fallback record per
request-body assignee other than the requester, created unconditionally —
the controller never consults connectedUsers, so online assignees are
included too. -/
def createTaskNotifications (fails : UserId → Bool) (requester : UserId)
    (assignees : List UserId) (taskId title : String) : List Notification :=
  notifyLoop fails requester "task:assign" taskId
    ("You have been assigned to task \x22" ++ title ++ "\x22") assignees

/-- The io.emit call of createTask is a broadcast: the emitted task:assign
event is delivered to every currently connected socket, regardless of the
recipient set of the event. -/
def createTaskBroadcastTargets (st : ServerState) : List SocketId :=
  st.connectedUsers.map Prod.snd

/-- The notification block of addComment: the task creator is notified
once directly (unless they are the commenter), and then the assignee loop
notifies every assignee other than the commenter — including the creator
again when, as createTask guarantees, the creator is among the assignees. -/
def addCommentNotifications (fails : UserId → Bool) (commenter : UserId)
    (createdBy : UserId) (assignees : List UserId) (taskId title : String) :
    List Notification :=
  (if createdBy = commenter then []
   else (createNotification fails createdBy "comment:new" taskId
      ("New comment on your task \x22" ++ title ++ "\x22")).toList)
  ++ notifyLoop fails commenter "comment:new" taskId
      ("New comment on task \x22" ++ title ++ "\x22") assignees

/-- A notification document as stored in the database: its id, the owning
user, and the read flag (the remaining fields play no role in the two
mutation endpoints). -/
structure StoredNotification where
  id : String
  user : UserId
  read : Bool
  deriving DecidableEq, Repr

/-- The updateMany call of markAsRead: every stored notification whose id
is in the supplied list and whose user field equals the requester gets
read set to true; nothing else changes. -/
def updateManyRead (db : List StoredNotification) (ids : List String)
    (uid : UserId) : List StoredNotification :=
  db.map fun n =>
    if n.id ∈ ids ∧ n.user = uid then { n with read := true } else n

/-- The markAsRead endpoint: a missing or empty notificationIds body is
rejected with a 400 and no update; otherwise the updateMany call above
runs and the endpoint answers 200. -/
def markAsRead (db : List StoredNotification) (uid : UserId)
    (notificationIds : Option (List String)) :
    List StoredNotification × Nat :=
  match notificationIds with
  | none => (db, 400)
  | some ids =>
    if ids.isEmpty then (db, 400) else (updateManyRead db ids uid, 200)

/-- The deleteMany call of deleteReadNotifications: removes exactly the
stored notifications owned by the requester whose read flag is true. -/
def deleteReadNotifications (db : List StoredNotification) (uid : UserId) :
    List StoredNotification :=
  db.filter fun n => !(n.user == uid && n.read)

/-- C1: evaluation of the createTask dispatch path at the failing input:
requester A creates a task with request-body assignees [B] while B is
online (connectedUsers holds B with socket sB).  B is online, the emitted
task:assign push is broadcast so it reaches sB, and yet a fallback
notification for B is still created — contradicting the claim that an
online recipient gets a push and no fallback record. -/
theorem createTask_online_recipient_gets_fallback :
    ConnectedUsers.has [("B", "sB")] "B" = true ∧
    "sB" ∈ createTaskBroadcastTargets
      { connectedUsers := [("B", "sB")], rooms := [("user:B", "sB")] } ∧
    (createTaskNotifications (fun _ => false) "A" ["B"] "t1" "T").map
      Notification.user = ["B"] := by
  exact ⟨rfl, by simp [createTaskBroadcastTargets], rfl⟩

/-- C2: evaluation of the task:update handler at the failing input: the
acting user U (socket.userId = U) appears in the assignee list.  When U is
online the handler emits the push to the socket stored for U; when U is
offline it creates a fallback notification for U.  The actor is never
skipped, contradicting the claim. -/
theorem taskUpdate_delivers_to_acting_user :
    (taskUpdateHandler (fun _ => false) [("U", "sU")] "U"
      { taskId := "t1", title := some "T", assignees := ["U"] }).1
      = [⟨"sU", "task:update"⟩] ∧
    ((taskUpdateHandler (fun _ => false) [] "U"
      { taskId := "t1", title := some "T", assignees := ["U"] }).2).map
      Notification.user = ["U"] := by
  exact ⟨rfl, rfl⟩

/-- C3: evaluation of the presence registry at the failing input: user U
opens connection c1 and then connection c2 (second registration overwrites
the single socket slot), after which c1 disconnects.  The disconnect
handler deletes the whole entry for U, so U is reported offline even
though c2 is still open — contradicting the claim. -/
theorem second_connection_lost_on_first_disconnect :
    (((handleConnection (fun t => if t = "tok" then some "U" else none)
        ((handleConnection (fun t => if t = "tok" then some "U" else none)
          { connectedUsers := [], rooms := [] } (some "tok") "c1").1)
        (some "tok") "c2").1).connectedUsers = [("U", "c2")]) ∧
    ((handleDisconnect
        ((handleConnection (fun t => if t = "tok" then some "U" else none)
          ((handleConnection (fun t => if t = "tok" then some "U" else none)
            { connectedUsers := [], rooms := [] } (some "tok") "c1").1)
          (some "tok") "c2").1)
        "U").connectedUsers.has "U" = false) := by
  exact ⟨rfl, rfl⟩

/-- C4: evaluation of push addressing at the failing input: user U holds
two simultaneous connections c1 and c2, both of which joined the room
user:U, while the single-slot registry stores only c2.  The task:update
handler addresses its push to the raw socket id c2, so the push does not
reach c1 — whereas a push addressed to the topic user:U would reach both
connections.  This contradicts the claim that pushes are published to the
per-identity topic. -/
theorem push_targets_raw_socket_not_topic :
    ((taskUpdateHandler (fun _ => false) [("U", "c2")] "V"
      { taskId := "t1", title := some "T", assignees := ["U"] }).1
      = [⟨"c2", "task:update"⟩]) ∧
    (reaches [("user:U", "c2"), ("user:U", "c1")] ⟨"c2", "task:update"⟩ "c2"
      = true) ∧
    (reaches [("user:U", "c2"), ("user:U", "c1")] ⟨"c2", "task:update"⟩ "c1"
      = false) ∧
    (reaches [("user:U", "c2"), ("user:U", "c1")] ⟨"user:U", "task:update"⟩ "c1"
      = true) := by
  exact ⟨rfl, rfl, rfl, rfl⟩

/-- C5: evaluation of comment dispatch at the failing input: user U2
comments on a task created by U1 whose assignee list is [U1, U2] (creators
are always among the assignees), with U1 offline.  Both the comment:new
socket handler and the addComment controller notification block produce
two fallback records for U1, because usersToNotify lists the creator twice
and only the commenter is skipped — contradicting the at-most-once claim. -/
theorem comment_duplicate_fallback_for_creator :
    (((commentNewHandler (fun _ => false) [] "U2"
      { taskId := "t1", taskCreator := "U1", assignees := ["U1", "U2"],
        title := some "T" }).2).map Notification.user = ["U1", "U1"]) ∧
    ((addCommentNotifications (fun _ => false) "U2" "U1" ["U1", "U2"]
      "t1" "T").map Notification.user = ["U1", "U1"]) := by
  exact ⟨rfl, rfl⟩

/-- C6: a connection whose credential is rejected by the authentication
middleware never reaches the registered state: the connection is refused,
the connectedUsers registry is unchanged and no room is joined. -/
theorem failed_auth_never_registers (verify : String → Option UserId)
    (st : ServerState) (token : Option String) (sid : SocketId) (e : String)
    (h : authMiddleware verify token = Except.error e) :
    (handleConnection verify st token sid).2 = false ∧
    (handleConnection verify st token sid).1.connectedUsers
      = st.connectedUsers ∧
    (handleConnection verify st token sid).1.rooms = st.rooms := by
  unfold handleConnection
  rw [h]
  exact ⟨rfl, rfl, rfl⟩

/-- Witness for C6 at a concrete rejected token. -/
theorem failed_auth_never_registers_witness :
    ((handleConnection (fun _ => none)
        { connectedUsers := [], rooms := [] } (some "bad") "c1").2 = false) ∧
    ((handleConnection (fun _ => none)
        { connectedUsers := [], rooms := [] } (some "bad") "c1").1.connectedUsers
      = ([] : ConnectedUsers)) ∧
    ((handleConnection (fun _ => none)
        { connectedUsers := [], rooms := [] } (some "bad") "c1").1.rooms
      = ([] : List (String × SocketId))) :=
  failed_auth_never_registers (fun _ => none)
    { connectedUsers := [], rooms := [] } (some "bad") "c1"
    "Authentication error" rfl

/-- The live pushes produced by the task:update loop do not depend on
which fallback writes fail. -/
theorem taskUpdateLoop_pushes_ignore_fails (fails fails' : UserId → Bool)
    (cu : ConnectedUsers) (taskId : String) (title : Option String)
    (l : List UserId) :
    (taskUpdateLoop fails cu taskId title l).1 =
      (taskUpdateLoop fails' cu taskId title l).1 := by
  induction l with
  | nil => rfl
  | cons a rest ih =>
    simp only [taskUpdateLoop, createNotification]
    by_cases h : cu.has a
    · simp [h, ih]
    · by_cases hf : fails a <;> by_cases hf' : fails' a <;>
        simp [h, hf, hf', ih]

/-- The fallback records that the task:update loop produces for a recipient
whose write succeeds are the same as in a run where no write fails. -/
theorem taskUpdateLoop_fallback_isolated (fails : UserId → Bool)
    (cu : ConnectedUsers) (taskId : String) (title : Option String)
    (r : UserId) (hr : fails r = false) (l : List UserId) :
    ((taskUpdateLoop fails cu taskId title l).2).filter (fun n => n.user == r)
      = ((taskUpdateLoop (fun _ => false) cu taskId title l).2).filter
          (fun n => n.user == r) := by
  induction l with
  | nil => rfl
  | cons a rest ih =>
    simp only [taskUpdateLoop, createNotification]
    by_cases h : cu.has a
    · simp [h, ih]
    · by_cases hf : fails a
      · have har : (a == r) = false := by
          refine beq_eq_false_iff_ne.mpr fun e => ?_
          rw [e, hr] at hf
          exact Bool.false_ne_true hf
        simp [h, hf, List.filter_cons, har, ih]
      · simp [h, hf, List.filter_cons, ih]

/-- C7: a failing fallback write is absorbed inside createNotification, so
a dispatch with several offline recipients still performs every live push
exactly as in a failure-free run, and still produces, for every recipient
whose write does not fail, exactly the fallback records of a failure-free
run; the handler itself returns normally for every input. -/
theorem fallback_failure_isolated (fails : UserId → Bool)
    (cu : ConnectedUsers) (actorId : UserId) (data : TaskUpdateData)
    (r : UserId) (hr : fails r = false) :
    (taskUpdateHandler fails cu actorId data).1 =
      (taskUpdateHandler (fun _ => false) cu actorId data).1 ∧
    ((taskUpdateHandler fails cu actorId data).2).filter (fun n => n.user == r)
      = ((taskUpdateHandler (fun _ => false) cu actorId data).2).filter
          (fun n => n.user == r) :=
  ⟨taskUpdateLoop_pushes_ignore_fails fails (fun _ => false) cu
      data.taskId data.title data.assignees,
   taskUpdateLoop_fallback_isolated fails cu data.taskId data.title
      r hr data.assignees⟩

/-- Witness for C7: the write for X fails while the write for Y succeeds,
both offline in an empty registry. -/
theorem fallback_failure_isolated_witness :
    ((fun u : UserId => u == "X") "Y" = false) ∧
    ((taskUpdateHandler (fun u : UserId => u == "X") [] "A"
        { taskId := "t1", title := some "T", assignees := ["X", "Y"] }).1 =
      (taskUpdateHandler (fun _ => false) [] "A"
        { taskId := "t1", title := some "T", assignees := ["X", "Y"] }).1 ∧
     ((taskUpdateHandler (fun u : UserId => u == "X") [] "A"
        { taskId := "t1", title := some "T",
          assignees := ["X", "Y"] }).2).filter (fun n => n.user == "Y")
      = ((taskUpdateHandler (fun _ => false) [] "A"
          { taskId := "t1", title := some "T",
            assignees := ["X", "Y"] }).2).filter (fun n => n.user == "Y")) :=
  ⟨rfl, fallback_failure_isolated (fun u => u == "X") [] "A"
    { taskId := "t1", title := some "T", assignees := ["X", "Y"] } "Y" rfl⟩

/-- C8: registering the same user id and socket id twice leaves the
connectedUsers registry exactly as a single registration does — Map.set is
idempotent and introduces no duplicate entry. -/
theorem register_idempotent (m : ConnectedUsers) (k : UserId) (v : SocketId) :
    ConnectedUsers.set (ConnectedUsers.set m k v) k v
      = ConnectedUsers.set m k v := by
  induction m with
  | nil => simp [ConnectedUsers.set]
  | cons hd tl ih =>
    obtain ⟨k', v'⟩ := hd
    by_cases h : k' = k
    · subst h
      simp [ConnectedUsers.set]
    · simp [ConnectedUsers.set, h, ih]

/-- Membership in the Set-spread of a list: an element appears in the
deduplicated output iff it appears in the input and was not already seen. -/
theorem jsSetDedup_mem (a : UserId) (l : List UserId) :
    ∀ seen, a ∈ jsSetDedup seen l ↔ a ∈ l ∧ a ∉ seen := by
  induction l with
  | nil => intro seen; simp [jsSetDedup]
  | cons b rest ih =>
    intro seen
    by_cases hb : b ∈ seen
    · rw [jsSetDedup, if_pos hb, ih seen]
      constructor
      · exact fun h => ⟨List.mem_cons_of_mem _ h.1, h.2⟩
      · rintro ⟨h1, h2⟩
        refine ⟨?_, h2⟩
        rcases List.mem_cons.mp h1 with rfl | h
        · exact absurd hb h2
        · exact h
    · rw [jsSetDedup, if_neg hb]
      simp only [List.mem_cons, ih]
      by_cases hab : a = b
      · subst hab
        simp [hb]
      · simp [hab]

/-- C9: every successfully persisted createTask stores the creator among
the assignees, and every updateTask that replaces the assignee list puts
the createdBy id back into it — both endpoints union the creator into the
caller-supplied list via the same Set spread. -/
theorem creator_always_assigned (assignees bodyAssignees : List UserId)
    (creator createdBy : UserId) :
    creator ∈ createTaskAllAssignees assignees creator ∧
    createdBy ∈ updateTaskAssignees bodyAssignees createdBy := by
  constructor
  · exact (jsSetDedup_mem creator (assignees ++ [creator]) []).mpr
      ⟨by simp, by simp⟩
  · exact (jsSetDedup_mem createdBy (bodyAssignees ++ [createdBy]) []).mpr
      ⟨by simp, by simp⟩

/-- Mapping a function that fixes every element the filter keeps, and
never changes whether the filter keeps an element, commutes away under the
filter. -/
theorem filter_map_eq_of_fix (f : StoredNotification → StoredNotification)
    (p : StoredNotification → Bool)
    (hp : ∀ n, p (f n) = p n) (hfix : ∀ n, p n = true → f n = n) :
    ∀ db : List StoredNotification, (db.map f).filter p = db.filter p := by
  intro db
  induction db with
  | nil => rfl
  | cons n rest ih =>
    rw [List.map_cons, List.filter_cons, List.filter_cons, hp]
    by_cases hn : p n = true
    · rw [if_pos hn, if_pos hn, hfix n hn, ih]
    · rw [if_neg hn, if_neg hn, ih]

/-- Pre-filtering by a predicate that keeps everything a second filter
keeps does not change the second filter. -/
theorem filter_filter_eq_of_keep (q p : StoredNotification → Bool)
    (hkeep : ∀ n, p n = true → q n = true) :
    ∀ db : List StoredNotification, (db.filter q).filter p = db.filter p := by
  intro db
  induction db with
  | nil => rfl
  | cons n rest ih =>
    simp only [List.filter_cons]
    by_cases hp : p n = true
    · have hq := hkeep n hp
      simp [hp, hq, List.filter_cons, ih]
    · by_cases hq : q n = true <;> simp [hp, hq, List.filter_cons, ih]

/-- The updateMany call of markAsRead leaves every notification owned by
any user other than the requester untouched, whatever ids were supplied. -/
theorem updateManyRead_other_user (db : List StoredNotification)
    (ids : List String) (uid u : UserId) (h : u ≠ uid) :
    (updateManyRead db ids uid).filter (fun n => n.user == u)
      = db.filter (fun n => n.user == u) := by
  refine filter_map_eq_of_fix _ _ ?_ ?_ db
  · intro n
    by_cases hc : n.id ∈ ids ∧ n.user = uid
    · rw [if_pos hc]
    · rw [if_neg hc]
  · intro n hn
    have hu : n.user = u := eq_of_beq hn
    rw [if_neg]
    intro hc
    exact h (hu ▸ hc.2)

/-- The deleteMany call of deleteReadNotifications leaves every
notification owned by any user other than the requester untouched. -/
theorem deleteRead_other_user (db : List StoredNotification) (uid u : UserId)
    (h : u ≠ uid) :
    (deleteReadNotifications db uid).filter (fun n => n.user == u)
      = db.filter (fun n => n.user == u) := by
  refine filter_filter_eq_of_keep _ _ ?_ db
  intro n hn
  have hu : n.user = u := eq_of_beq hn
  have huid : (n.user == uid) = false :=
    beq_eq_false_iff_ne.mpr (by rw [hu]; exact h)
  simp [huid]

/-- C10: the two notification mutation endpoints are scoped to the
authenticated requester: for any other user u, the filtered view of the
store holding exactly the notifications of u is unchanged both by
markAsRead (whatever id list is supplied, including ids of notifications
of u) and by deleteReadNotifications. -/
theorem notification_endpoints_scoped (db : List StoredNotification)
    (uid u : UserId) (notificationIds : Option (List String)) (h : u ≠ uid) :
    ((markAsRead db uid notificationIds).1).filter (fun n => n.user == u)
      = db.filter (fun n => n.user == u) ∧
    (deleteReadNotifications db uid).filter (fun n => n.user == u)
      = db.filter (fun n => n.user == u) := by
  refine ⟨?_, deleteRead_other_user db uid u h⟩
  match notificationIds with
  | none => rfl
  | some ids =>
    by_cases he : ids.isEmpty
    · simp [markAsRead, he]
    · simp [markAsRead, he, updateManyRead_other_user db ids uid u h]

/-- Witness for C10 at a concrete store: user A marks both listed ids as
read and purges read records, while the notification of user B (whose id
A even listed) stays untouched. -/
theorem notification_endpoints_scoped_witness :
    (("B" : UserId) ≠ "A") ∧
    (((markAsRead [⟨"n1", "A", false⟩, ⟨"n2", "B", false⟩] "A"
        (some ["n1", "n2"])).1).filter (fun n => n.user == "B")
      = ([⟨"n1", "A", false⟩, ⟨"n2", "B", false⟩] :
          List StoredNotification).filter (fun n => n.user == "B") ∧
     (deleteReadNotifications [⟨"n1", "A", false⟩, ⟨"n2", "B", false⟩]
        "A").filter (fun n => n.user == "B")
      = ([⟨"n1", "A", false⟩, ⟨"n2", "B", false⟩] :
          List StoredNotification).filter (fun n => n.user == "B")) :=
  ⟨by decide, notification_endpoints_scoped
    [⟨"n1", "A", false⟩, ⟨"n2", "B", false⟩] "A" "B"
    (some ["n1", "n2"]) (by decide)⟩
